import Mathlib

/-!
Verification of the code-parsing façade in
`src/code-parsing/common/code-parser.ts`.

The TypeScript fragment declares an immutable data model (Package,
Modifiers, TypeMember, Field, Parameter, Method, Type, TypeDetails,
Import, ParsedCodeFile), a `LanguageHandler` capability with two
operations, and a `CodeParser` façade whose single method `parseCode`
invokes the handler's `parseImports` and then `parseTypes` on the same
input and assembles the two results into a `ParsedCodeFile`.

Handlers are effectful collaborators (they may throw, and a test double
may record its invocations), so the embedding is parametric in a monad
`m`: a handler operation `parseImports(code: string): Import[]` becomes
`parseImports : String → m (List Import)`, and `parseCode` is the same
two sequential calls in `m`.  Instantiating `m := Id` gives the pure
runs, `m := Except ε` the throwing runs, and a state monad over a call
log the instrumented runs used to observe call order and multiplicity.
-/

namespace CodeParsing

/-- TypeScript `Package`: the namespace/module a type belongs to. -/
structure Package where
  name : String

/-- TypeScript visibility union `'public' | 'private' | 'protected' | 'default'`. -/
inductive Visibility where
  | publicVis
  | privateVis
  | protectedVis
  | defaultVis

/-- TypeScript `Modifiers`: the modifiers of an element in the code. -/
structure Modifiers where
  isStatic : Bool
  isFinal : Bool
  isAbstract : Bool
  visibility : Visibility

/-- TypeScript `TypeMember`: base shape of a member of a type. -/
structure TypeMember where
  name : String
  modifiers : Modifiers

/-- TypeScript kind union `'class' | 'interface' | 'enum' | 'annotation'`
(the `type` field of `Type`). -/
inductive TypeKind where
  | classKind
  | interfaceKind
  | enumKind
  | annotKind

/-- TypeScript `Type` (named `Ty` here because `Type` is reserved in Lean):
package, name, modifiers, kind tag, super classes and implemented
interfaces.  The latter two are (possibly empty) ordered sequences of
`Ty`, so the shape is a nested inductive. -/
inductive Ty where
  | mk (pkg : Package) (name : String) (modifiers : Modifiers)
       (type : TypeKind) (superClasses : List Ty) (interfaces : List Ty)

/-- Projection for the `package` field of `Ty`. -/
def Ty.pkg : Ty → Package
  | .mk p _ _ _ _ _ => p

/-- Projection for the `name` field of `Ty`. -/
def Ty.name : Ty → String
  | .mk _ n _ _ _ _ => n

/-- Projection for the `modifiers` field of `Ty`. -/
def Ty.modifiers : Ty → Modifiers
  | .mk _ _ m _ _ _ => m

/-- Projection for the `type` (kind tag) field of `Ty`. -/
def Ty.type : Ty → TypeKind
  | .mk _ _ _ k _ _ => k

/-- Projection for the `superClasses` field of `Ty`. -/
def Ty.superClasses : Ty → List Ty
  | .mk _ _ _ _ s _ => s

/-- Projection for the `interfaces` field of `Ty`. -/
def Ty.interfaces : Ty → List Ty
  | .mk _ _ _ _ _ i => i

/-- TypeScript `Field extends TypeMember`: adds the field's declared type. -/
structure Field extends TypeMember where
  type : Ty

/-- TypeScript `Parameter`: a name and a declared type. -/
structure Parameter where
  name : String
  type : Ty

/-- TypeScript `Method extends TypeMember`: adds return type and parameters. -/
structure Method extends TypeMember where
  returnType : Ty
  parameters : List Parameter

/-- TypeScript `TypeDetails`: a type together with its members. -/
structure TypeDetails where
  type : Ty
  typeMembers : List TypeMember

/-- TypeScript `Import`: the fully qualified name of an import. -/
structure Import where
  value : String

/-- TypeScript `ParsedCodeFile`: the result of the code parsing façade. -/
structure ParsedCodeFile where
  imports : List Import
  types : List Ty

/-- TypeScript `LanguageHandler`: the capability every supported language
provides, with effects in an ambient monad `m`. -/
structure LanguageHandler (m : Type → Type) where
  parseImports : String → m (List Import)
  parseTypes : String → m (List Ty)

/-- TypeScript `CodeParser`: holds exactly one `LanguageHandler`
(`private readonly`, fixed at construction). -/
structure CodeParser (m : Type → Type) where
  languageHandler : LanguageHandler m

/-- TypeScript `CodeParser.parseCode`: get the imports from the handler,
then the classes, and return the record `{ imports, types }`. -/
def CodeParser.parseCode {m : Type → Type} [Monad m]
    (p : CodeParser m) (code : String) : m ParsedCodeFile := do
  let imports : List Import ← p.languageHandler.parseImports code
  let types : List Ty ← p.languageHandler.parseTypes code
  pure { imports := imports, types := types }

/-- Events recorded by an instrumented handler: one entry per handler
invocation, carrying the argument the façade passed. -/
inductive CallEvent where
  | importsCall (code : String)
  | typesCall (code : String)

/-- Wraps a pure handler so that every invocation is appended to a call
log, leaving the returned values unchanged. -/
def tracingHandler (h : LanguageHandler Id) :
    LanguageHandler (StateM (List CallEvent)) where
  parseImports c := fun s => (h.parseImports c, s ++ [CallEvent.importsCall c])
  parseTypes c := fun s => (h.parseTypes c, s ++ [CallEvent.typesCall c])

/-- Claim C1: when both handler calls return normally, `parseCode`
returns exactly the record pairing the handler's imports with the
handler's types: the façade adds no transformation, reordering or
filtering. -/
theorem parseCode_is_identity_facade {ε : Type}
    (h : LanguageHandler (Except ε)) (c : String)
    (is : List Import) (ts : List Ty)
    (h1 : h.parseImports c = Except.ok is)
    (h2 : h.parseTypes c = Except.ok ts) :
    (CodeParser.mk h).parseCode c = Except.ok { imports := is, types := ts } := by
  simp only [CodeParser.parseCode, h1, h2, bind, Except.bind, pure, Except.pure]

/-- Concrete stub handler used to witness claim C1. -/
def stubHandlerA : LanguageHandler (Except String) where
  parseImports _ := Except.ok [{ value := "java.util.List" }]
  parseTypes _ := Except.ok []

/-- Witness for claim C1 at a concrete handler and input. -/
theorem parseCode_is_identity_facade_witness :
    (CodeParser.mk stubHandlerA).parseCode "code" =
      Except.ok { imports := [{ value := "java.util.List" }], types := [] } :=
  parseCode_is_identity_facade stubHandlerA "code"
    [{ value := "java.util.List" }] [] rfl rfl

/-- Sequencing lemma for the instrumented throwing monad: if the first
action already stops with an error, the whole sequence stops with that
error and the final log is the first action's log, untouched by the
continuation. -/
theorem exceptTState_bind_error {σ ε α β : Type}
    (x : ExceptT ε (StateM σ) α) (f : α → ExceptT ε (StateM σ) β)
    (s sFinal : σ) (e : ε) (hx : x.run s = (Except.error e, sFinal)) :
    (x >>= f).run s = (Except.error e, sFinal) := by
  have hrw : (x >>= f).run s =
      match x.run s with
      | (a, s1) => ExceptT.bindCont f a s1 := rfl
  rw [hrw, hx]
  exact rfl

/-- Claim C2: `parseCode` invokes `parseImports` first; when that call
stops with an error, `parseCode` stops with that exact error and the
call log is exactly the log left by `parseImports` — `parseTypes` is
never invoked (the result does not depend on it and nothing is appended
after the failing call). -/
theorem parseCode_importsError_short_circuits {ε : Type}
    (h : LanguageHandler (ExceptT ε (StateM (List CallEvent))))
    (c : String) (e : ε) (s sFinal : List CallEvent)
    (hi : (h.parseImports c).run s = (Except.error e, sFinal)) :
    ((CodeParser.mk h).parseCode c).run s = (Except.error e, sFinal) := by
  unfold CodeParser.parseCode
  exact exceptTState_bind_error _ _ s sFinal e hi

/-- Concrete handler whose `parseImports` records its invocation and then
throws, used to witness claim C2. -/
def throwingStubHandler :
    LanguageHandler (ExceptT String (StateM (List CallEvent))) where
  parseImports c := ExceptT.mk fun s =>
    (Except.error "imports failed", s ++ [CallEvent.importsCall c])
  parseTypes c := ExceptT.mk fun s =>
    (Except.ok [], s ++ [CallEvent.typesCall c])

/-- Witness for claim C2: the concrete run propagates the handler's error
and the final call log holds the `parseImports` call only. -/
theorem parseCode_importsError_short_circuits_witness :
    ((CodeParser.mk throwingStubHandler).parseCode "X").run [] =
      (Except.error "imports failed", [CallEvent.importsCall "X"]) :=
  parseCode_importsError_short_circuits throwingStubHandler "X"
    "imports failed" [] [CallEvent.importsCall "X"] rfl

/-- Claim C3: `parseCode` results in an error exactly when one of the two
handler invocations does, and it is the handler's error value itself that
surfaces — never caught, wrapped or recovered, and no `ParsedCodeFile`
is produced in that case. -/
theorem parseCode_error_iff {ε : Type}
    (h : LanguageHandler (Except ε)) (c : String) (e : ε) :
    (CodeParser.mk h).parseCode c = Except.error e ↔
      h.parseImports c = Except.error e ∨
      ∃ is, h.parseImports c = Except.ok is ∧
        h.parseTypes c = Except.error e := by
  cases hi : h.parseImports c with
  | error e1 =>
    simp [CodeParser.parseCode, hi, bind, Except.bind]
  | ok is0 =>
    cases ht : h.parseTypes c with
    | error e2 =>
      simp [CodeParser.parseCode, hi, ht, bind, Except.bind]
    | ok ts =>
      simp [CodeParser.parseCode, hi, ht, bind, Except.bind, pure, Except.pure]

/-- Lifts a pure handler into an ambient state monad without touching the
state: the handler itself has no effects. -/
def pureLiftHandler {σ : Type} (h : LanguageHandler Id) :
    LanguageHandler (StateM σ) where
  parseImports c := fun s => (h.parseImports c, s)
  parseTypes c := fun s => (h.parseTypes c, s)

/-- Claim C4: `parseCode` is a pure function of its input and the
handler's behavior: with an effect-free handler it leaves any ambient
state untouched (no caching, no mutation, no other side effects), and
two invocations started in different states return structurally equal
`ParsedCodeFile` values. -/
theorem parseCode_pure_no_side_effects {σ : Type}
    (h : LanguageHandler Id) (c : String) (s1 s2 : σ) :
    ((CodeParser.mk (pureLiftHandler h)).parseCode c).run s1 =
      ({ imports := h.parseImports c, types := h.parseTypes c }, s1) ∧
    (((CodeParser.mk (pureLiftHandler h)).parseCode c).run s1).1 =
      (((CodeParser.mk (pureLiftHandler h)).parseCode c).run s2).1 :=
  ⟨rfl, rfl⟩

/-- Modifiers block with every flag off and public visibility, used by
the concrete sample types below. -/
def defaultModifiers : Modifiers :=
  { isStatic := false, isFinal := false, isAbstract := false,
    visibility := Visibility.publicVis }

/-- Sample enum type with empty `superClasses` (conforming to the
handler-level invariant). -/
def conformingEnumTy : Ty :=
  Ty.mk { name := "p" } "E" defaultModifiers TypeKind.enumKind [] []

/-- Sample enum type with a non-empty `superClasses` list (structurally
invalid for its kind). -/
def invalidEnumTy : Ty :=
  Ty.mk { name := "p" } "B" defaultModifiers TypeKind.enumKind
    [conformingEnumTy] []

/-- Handler returning the conforming enum type. -/
def conformingEnumHandler : LanguageHandler Id where
  parseImports _ := []
  parseTypes _ := [conformingEnumTy]

/-- Handler returning the kind-inconsistent enum type. -/
def invalidEnumHandler : LanguageHandler Id where
  parseImports _ := []
  parseTypes _ := [invalidEnumTy]

/-- Claim C5: `parseCode` performs no validation of handler output: the
types sequence is passed through unchanged for every handler, so a
conforming enum (empty `superClasses`) is observed unchanged, and a
kind-inconsistent enum (non-empty `superClasses`) is neither rejected
nor repaired. -/
theorem parseCode_no_output_validation :
    (∀ (h : LanguageHandler Id) (c : String),
        ((CodeParser.mk h).parseCode c).types = h.parseTypes c) ∧
    ((CodeParser.mk conformingEnumHandler).parseCode "enum E").types
      = [conformingEnumTy] ∧
    conformingEnumTy.type = TypeKind.enumKind ∧
    conformingEnumTy.superClasses = [] ∧
    ((CodeParser.mk invalidEnumHandler).parseCode "enum B").types
      = [invalidEnumTy] ∧
    invalidEnumTy.type = TypeKind.enumKind ∧
    invalidEnumTy.superClasses ≠ [] := by
  refine ⟨fun h c => rfl, rfl, rfl, rfl, rfl, rfl, ?_⟩
  intro hcontra
  simp [invalidEnumTy, Ty.superClasses] at hcontra

/-- Sample class type used for the declaration-order scenario. -/
def sampleClassTy : Ty :=
  Ty.mk { name := "p" } "C" defaultModifiers TypeKind.classKind [] []

/-- Sample interface type used for the declaration-order scenario. -/
def sampleInterfaceTy : Ty :=
  Ty.mk { name := "p" } "I" defaultModifiers TypeKind.interfaceKind [] []

/-- Handler returning a class followed by an interface, used to witness
claim C6. -/
def twoTypesHandler : LanguageHandler Id where
  parseImports _ := []
  parseTypes _ := [sampleClassTy, sampleInterfaceTy]

/-- Claim C6: when the handler returns a two-element types sequence whose
first element is a class and second an interface, `parseCode` preserves
that exact order: index 0 is the class, index 1 is the interface. -/
theorem parseCode_preserves_declaration_order
    (h : LanguageHandler Id) (c : String) (t1 t2 : Ty)
    (ht : h.parseTypes c = [t1, t2])
    (k1 : t1.type = TypeKind.classKind)
    (k2 : t2.type = TypeKind.interfaceKind) :
    ((CodeParser.mk h).parseCode c).types = [t1, t2] ∧
    ((CodeParser.mk h).parseCode c).types[0]? = some t1 ∧
    ((CodeParser.mk h).parseCode c).types[1]? = some t2 := by
  have base : ((CodeParser.mk h).parseCode c).types = h.parseTypes c := rfl
  refine ⟨?_, ?_, ?_⟩ <;> rw [base, ht] <;> rfl

/-- Witness for claim C6 at the concrete two-type handler. -/
theorem parseCode_preserves_declaration_order_witness :
    ((CodeParser.mk twoTypesHandler).parseCode "src").types
        = [sampleClassTy, sampleInterfaceTy] ∧
    ((CodeParser.mk twoTypesHandler).parseCode "src").types[0]?
        = some sampleClassTy ∧
    ((CodeParser.mk twoTypesHandler).parseCode "src").types[1]?
        = some sampleInterfaceTy :=
  parseCode_preserves_declaration_order twoTypesHandler "src"
    sampleClassTy sampleInterfaceTy rfl rfl rfl

/-- Claim C7: for a stub handler with `parseImports "X" = [a.b.C]` and
`parseTypes "X" = []`, `parseCode "X"` returns exactly that import list
and the empty types list. -/
theorem parseCode_roundtrip_stub (h : LanguageHandler Id)
    (hi : h.parseImports "X" = [{ value := "a.b.C" }])
    (ht : h.parseTypes "X" = []) :
    (CodeParser.mk h).parseCode "X" =
      { imports := [{ value := "a.b.C" }], types := [] } := by
  have base : (CodeParser.mk h).parseCode "X" =
      { imports := h.parseImports "X", types := h.parseTypes "X" } := rfl
  rw [base, hi, ht]

/-- Concrete stub handler for the round-trip scenario of claim C7. -/
def stubHandlerB : LanguageHandler Id where
  parseImports _ := [{ value := "a.b.C" }]
  parseTypes _ := []

/-- Witness for claim C7 at the concrete stub handler. -/
theorem parseCode_roundtrip_stub_witness :
    (CodeParser.mk stubHandlerB).parseCode "X" =
      { imports := [{ value := "a.b.C" }], types := [] } :=
  parseCode_roundtrip_stub stubHandlerB rfl rfl

/-- Claim C8: the empty input string is accepted like any other text:
with a handler returning empty sequences on `""`, `parseCode ""` is
the record with empty imports and empty types. -/
theorem parseCode_empty_input (h : LanguageHandler Id)
    (hi : h.parseImports "" = [])
    (ht : h.parseTypes "" = []) :
    (CodeParser.mk h).parseCode "" = { imports := [], types := [] } := by
  have base : (CodeParser.mk h).parseCode "" =
      { imports := h.parseImports "", types := h.parseTypes "" } := rfl
  rw [base, hi, ht]

/-- Concrete handler returning empty sequences everywhere, used to
witness claim C8. -/
def emptyHandler : LanguageHandler Id where
  parseImports _ := []
  parseTypes _ := []

/-- Witness for claim C8 at the concrete empty handler. -/
theorem parseCode_empty_input_witness :
    (CodeParser.mk emptyHandler).parseCode "" =
      { imports := [], types := [] } :=
  parseCode_empty_input emptyHandler rfl rfl

/-- Claim C9: a `CodeParser` holds exactly one handler reference, fixed
at construction: projecting the field of a freshly constructed façade
gives the handler back, every façade value is nothing but its single
handler field, and every `parseCode` invocation dispatches to that
stored handler (the façade, an immutable value, is unchanged by the
call). -/
theorem codeParser_single_fixed_handler {m : Type → Type} [Monad m]
    (h : LanguageHandler m) (c : String) :
    (CodeParser.mk h).languageHandler = h ∧
    (∀ p : CodeParser m, p = CodeParser.mk p.languageHandler) ∧
    (∀ p : CodeParser m,
        p.parseCode c = (CodeParser.mk p.languageHandler).parseCode c) := by
  refine ⟨rfl, fun p => ?_, fun p => rfl⟩
  cases p
  rfl

/-- Claim C10: one `parseCode` invocation calls `parseImports` exactly
once and then `parseTypes` exactly once, passing the identical input
string to both: with a tracing handler the final call log extends the
initial one by exactly those two events in that order, and the result
is the pure handler's record. -/
theorem parseCode_calls_each_handler_once
    (h : LanguageHandler Id) (c : String) (s : List CallEvent) :
    ((CodeParser.mk (tracingHandler h)).parseCode c).run s =
      ({ imports := h.parseImports c, types := h.parseTypes c },
       s ++ [CallEvent.importsCall c, CallEvent.typesCall c]) := by
  simp [CodeParser.parseCode, tracingHandler, StateT.run, bind, StateT.bind,
    pure, StateT.pure]

end CodeParsing
